import Mathlib

/-!
Verification development for the `color-profile-CMYK-printer-using-scanner`
repository: a shallow embedding in Lean 4 of the Argyll `.cal` parsing and
Gutenprint parameter-estimation pipeline, together with theorems settling the
frozen specification claims.

The repository has two accumulator variants that the claims reference:
  * `calculate_gutenprint_cal.py` (multiplicative cumulative updates), embedded
    over `ℚ` (Python floats modelled as exact rationals);
  * `cal2gutenprint_v0.py` (exponential smoothing), whose estimators use
    `np.log` and are therefore embedded over `ℝ`.

Python strings are modelled as `List Char` (`Str`), and Python `float(...)`
token parsing as `parseFloat` over a decimal grammar (the `inf`/`nan` literals
and underscore separators that CPython also accepts are not modelled; no claim
depends on them).
-/

/-- Python strings are modelled as lists of characters. -/
abbrev Str := List Char

/-- Python `str.strip()` : drop whitespace from both ends. -/
def pyStrip (s : Str) : Str :=
  ((s.dropWhile Char.isWhitespace).reverse.dropWhile Char.isWhitespace).reverse

/-- Helper for `pyTokens` (accumulator holds the current token reversed). -/
def pyTokensGo : Str → Str → List Str
  | [], acc => if acc.isEmpty then [] else [acc.reverse]
  | c :: r, acc =>
      if c.isWhitespace then
        if acc.isEmpty then pyTokensGo r [] else acc.reverse :: pyTokensGo r []
      else pyTokensGo r (c :: acc)

/-- Python `str.split()` with no arguments: split on whitespace runs, no empty
tokens. -/
def pyTokens (s : Str) : List Str := pyTokensGo s []

/-- Helper for `splitCh`. -/
def splitChGo (ch : Char) : Str → Str → List Str
  | [], acc => [acc.reverse]
  | c :: r, acc => if c = ch then acc.reverse :: splitChGo ch r [] else splitChGo ch r (c :: acc)

/-- Python `str.split(ch)` for a single-character separator: keeps empty
pieces, always returns at least one piece. -/
def splitCh (ch : Char) (s : Str) : List Str := splitChGo ch s []

/-- Substring containment, Python's `pat in s`. -/
def containsSub : Str → Str → Bool
  | pat, [] => pat.isEmpty
  | pat, c :: r => pat.isPrefixOf (c :: r) || containsSub pat r

/-- Value of a digit string (`digitsVal ['4','2'] = 42`); callers check
digitness separately. -/
def digitsVal (cs : Str) : ℕ := cs.foldl (fun a c => a * 10 + (c.toNat - 48)) 0

/-- Optional leading `+`/`-` sign; returns the sign and the rest. -/
def pySign : Str → ℤ × Str
  | '+' :: r => (1, r)
  | '-' :: r => (-1, r)
  | r => (1, r)

/-- Unsigned decimal mantissa of a Python float literal: `12`, `12.`, `.5`,
`1.5`; at least one digit overall. -/
def parseMant (cs : Str) : Option ℚ :=
  match splitCh '.' cs with
  | [a] => if !a.isEmpty && a.all Char.isDigit then some (digitsVal a) else none
  | [a, b] =>
      if (!a.isEmpty || !b.isEmpty) && a.all Char.isDigit && b.all Char.isDigit then
        some ((digitsVal a : ℚ) + (digitsVal b : ℚ) / 10 ^ b.length)
      else none
  | _ => none

/-- Signed integer exponent part of a float literal. -/
def parseExp (cs : Str) : Option ℤ :=
  let (s, r) := pySign cs
  if !r.isEmpty && r.all Char.isDigit then some (s * digitsVal r) else none

/-- Python `float(token)` on the decimal grammar (sign, mantissa, optional
`e`-exponent), returning the exact rational value; `none` models the
`ValueError` CPython raises on a malformed literal. -/
def parseFloat (s : Str) : Option ℚ :=
  let cs := s.map Char.toLower
  let (sgn, r) := pySign cs
  match splitCh 'e' r with
  | [m] => (parseMant m).map fun q => (sgn : ℚ) * q
  | [m, ex] =>
      match parseMant m, parseExp ex with
      | some q, some e => some ((sgn : ℚ) * q * (10 : ℚ) ^ e)
      | _, _ => none
  | _ => none

/-- All-or-nothing float conversion of a token list (a `ValueError` on any
token fails the whole comprehension). -/
def parseFloats : List Str → Option (List ℚ)
  | [] => some []
  | t :: r =>
      match parseFloat t, parseFloats r with
      | some v, some vs => some (v :: vs)
      | _, _ => none

/-- `[float(x) for x in line.split()]`: `none` models the uncaught
`ValueError` when any token is malformed. -/
def parseRow (line : Str) : Option (List ℚ) := parseFloats (pyTokens line)

/-- `line[0].isdigit()` guard used by `parse_cal_file` (false on the empty
line, matching Python's truthiness test `line and line[0].isdigit()`). -/
def firstIsDigit (s : Str) : Bool :=
  match s with
  | [] => false
  | c :: _ => c.isDigit

-- ----------------------------------------------------------------
-- calculate_gutenprint_cal.py : data model
-- ----------------------------------------------------------------

/-- The four ink channels of `CHAN_IDX`. -/
inductive Chan
  | Cyan
  | Magenta
  | Yellow
  | Black
deriving DecidableEq, Repr

/-- Channel column index in a `.cal` data row (`CHAN_IDX`; column 0 is the
input level). -/
def CHAN_IDX : Chan → ℕ
  | Chan.Cyan => 1
  | Chan.Magenta => 2
  | Chan.Yellow => 3
  | Chan.Black => 4

/-- One channel's parsed curve: aligned input and output arrays. -/
structure Curve where
  inp : List ℚ
  out : List ℚ
deriving DecidableEq, Repr

/-- The `curves` / `de_resp` dictionaries of `parse_cal_file`, keyed by
channel. -/
abbrev CurveMap := List (Chan × Curve)

/-- Python dict lookup `m[c]` as an option (`none` models `KeyError`). -/
def keyFind : CurveMap → Chan → Option Curve
  | [], _ => none
  | (k, v) :: r, c => if k = c then some v else keyFind r c

/-- The fifteen-entry Parameter Set of `DEFAULT_PARAMS`. -/
structure Params where
  cyanGamma : ℚ
  cyanDensity : ℚ
  lightCyanValue : ℚ
  lightCyanScale : ℚ
  lightCyanTrans : ℚ
  magentaGamma : ℚ
  magentaDensity : ℚ
  lightMagentaValue : ℚ
  lightMagentaScale : ℚ
  lightMagentaTrans : ℚ
  yellowGamma : ℚ
  yellowDensity : ℚ
  blackGamma : ℚ
  blackDensity : ℚ
  compositeGamma : ℚ
deriving DecidableEq, Repr

/-- `DEFAULT_PARAMS` of `calculate_gutenprint_cal.py`. -/
def DEFAULT_PARAMS : Params where
  cyanGamma := 1
  cyanDensity := 1
  lightCyanValue := 7/20
  lightCyanScale := 1
  lightCyanTrans := 3/5
  magentaGamma := 1
  magentaDensity := 1
  lightMagentaValue := 7/20
  lightMagentaScale := 1
  lightMagentaTrans := 3/5
  yellowGamma := 1
  yellowDensity := 1
  blackGamma := 1
  blackDensity := 1
  compositeGamma := 1

-- ----------------------------------------------------------------
-- calculate_gutenprint_cal.py : parse_cal_file
-- ----------------------------------------------------------------

/-- Which data block the robust block parser is inside. -/
inductive PBlock
  | CURVES
  | DE
deriving DecidableEq, Repr

/-- Parser state of `parse_cal_file`'s block loop: current block and the
accumulated `data_curves` / `data_de` row lists. -/
structure PcfSt where
  cur : Option PBlock
  dcurves : List (List ℚ)
  dde : List (List ℚ)
deriving DecidableEq, Repr

/-- Header substring recognising the device-calibration-curves block. -/
def curvesDescr : Str := "DESCRIPTOR \"Argyll Device Calibration Curves\"".data

/-- Header substring recognising the expected-DE-response block. -/
def deDescr : Str := "DESCRIPTOR \"Argyll Output Calibration Expected DE Response\"".data

/-- One iteration of `parse_cal_file`'s block loop. A line inside a block is
parsed as data only when its first character is a decimal digit; a
digit-leading line with a malformed token raises `ValueError` (`.error`),
since the `float(...)` comprehension is not guarded by try/except. -/
def pcfStep (st : PcfSt) (line0 : Str) : Except Unit PcfSt :=
  let line := pyStrip line0
  if containsSub curvesDescr line then Except.ok { st with cur := some PBlock.CURVES }
  else if containsSub deDescr line then Except.ok { st with cur := some PBlock.DE }
  else if "BEGIN_DATA".data.isPrefixOf line then Except.ok st
  else if "END_DATA_FORMAT".data.isPrefixOf line then Except.ok st
  else if "END_DATA".data.isPrefixOf line then Except.ok { st with cur := none }
  else if "CAL".data.isPrefixOf line || "Originator".data.isPrefixOf line
       || "Created".data.isPrefixOf line then Except.ok st
  else
    match st.cur with
    | none => Except.ok st
    | some b =>
        if firstIsDigit line then
          match parseRow line with
          | some row =>
              match b with
              | PBlock.CURVES => Except.ok { st with dcurves := st.dcurves ++ [row] }
              | PBlock.DE => Except.ok { st with dde := st.dde ++ [row] }
          | none => Except.error ()
        else Except.ok st

/-- Run the block loop over all lines. -/
def pcfRun : List Str → PcfSt → Except Unit PcfSt
  | [], st => Except.ok st
  | l :: r, st =>
      match pcfStep st l with
      | Except.error e => Except.error e
      | Except.ok st2 => pcfRun r st2

/-- The accumulated `(data_curves, data_de)` row lists of `parse_cal_file`. -/
def pcfData (lines : List Str) : Except Unit (List (List ℚ) × List (List ℚ)) :=
  match pcfRun lines ⟨none, [], []⟩ with
  | Except.error e => Except.error e
  | Except.ok st => Except.ok (st.dcurves, st.dde)

/-- Numpy column extraction `rows[:, j]`. Rows are assumed rectangular as in
a well-formed `.cal` file (numpy would reject a ragged `np.array`); short
rows default to 0 here. -/
def colQ (rows : List (List ℚ)) (j : ℕ) : List ℚ := rows.map fun r => r.getD j 0

/-- Build the per-channel dictionary from a data table: empty when the table
has no rows (`dc.size > 0` guard), otherwise one entry per `CHAN_IDX`
channel sharing column 0 as input. -/
def mkMap (rows : List (List ℚ)) : CurveMap :=
  if rows.isEmpty then []
  else
    [ (Chan.Cyan, ⟨colQ rows 0, colQ rows (CHAN_IDX Chan.Cyan)⟩),
      (Chan.Magenta, ⟨colQ rows 0, colQ rows (CHAN_IDX Chan.Magenta)⟩),
      (Chan.Yellow, ⟨colQ rows 0, colQ rows (CHAN_IDX Chan.Yellow)⟩),
      (Chan.Black, ⟨colQ rows 0, colQ rows (CHAN_IDX Chan.Black)⟩) ]

/-- `parse_cal_file`: the `(curves, de_resp)` dictionaries. -/
def parse_cal_file (lines : List Str) : Except Unit (CurveMap × CurveMap) :=
  match pcfData lines with
  | Except.error e => Except.error e
  | Except.ok (dc, dde) => Except.ok (mkMap dc, mkMap dde)

-- ----------------------------------------------------------------
-- calculate_gutenprint_cal.py : estimators
-- ----------------------------------------------------------------

/-- The `1e-6` epsilon used by `fit_gamma`. -/
def qeps : ℚ := 1 / 1000000

/-- `fit_gamma(x, y)`: fits `y = x^g` with `scipy.optimize.curve_fit` on the
epsilon-shifted arrays. The nonlinear optimiser is external to the
repository and is abstracted as the oracle `cf`; `none` models any exception
it raises, caught by the bare `except:` which returns the neutral `1.0`. -/
def fit_gamma (cf : List ℚ → List ℚ → Option ℚ) (x y : List ℚ) : ℚ :=
  (cf (x.map fun v => v + qeps) (y.map fun v => v + qeps)).getD 1

/-- `analyze_light_ink`: mean of `curve - inp` over the `inp <= 0.6` mask,
scaled by `-0.8`, added to the current value and clamped to `[0.1, 0.9]`.
`de_curve` and `current_trans` are accepted but unused, as in the source.
The empty-mask corner (`np.mean([])` = NaN in numpy) appears here as `0/0 = 0`;
no theorem below evaluates that corner. -/
def analyze_light_ink (inp curve de_curve : List ℚ) (current_val current_trans : ℚ) : ℚ :=
  let pairs := (inp.zip curve).filter fun p => decide (p.1 ≤ 3/5)
  let diffs := pairs.map fun p => p.2 - p.1
  let avg_diff := diffs.sum / (diffs.length : ℚ)
  let val_correction := avg_diff * (-(4/5))
  max (1/10) (min (9/10) (current_val + val_correction))

/-- The `inp > 0.9` masked sample pairs used by `analyze_density` (arrays
are aligned index-wise; numpy would reject mismatched lengths). -/
def densMask (inp de_curve : List ℚ) : List (ℚ × ℚ) :=
  (inp.zip de_curve).filter fun p => decide (9/10 < p.1)

/-- The saturation slope of `analyze_density`: from the first masked sample
to the last sample of the whole curve. -/
def densSlope (inp de_curve : List ℚ) : ℚ :=
  ((de_curve.getLastD 0) - ((densMask inp de_curve).headD (0, 0)).2)
    / ((inp.getLastD 0) - ((densMask inp de_curve).headD (0, 0)).1)

/-- `analyze_density(inp, de_curve)`: `1.0` with fewer than two samples above
input level 0.9; otherwise `0.95` when the signed slope is below `10.0`,
else `1.0`. -/
def analyze_density (inp de_curve : List ℚ) : ℚ :=
  if (densMask inp de_curve).length < 2 then 1
  else if densSlope inp de_curve < 10 then 19/20
  else 1

-- ----------------------------------------------------------------
-- calculate_gutenprint_cal.py : process (the run accumulator)
-- ----------------------------------------------------------------

/-- Gamma-loop step for Cyan: `params['CyanGamma'] *= fit_gamma(...)` when the
channel is present, else skip. -/
def gammaCyanStep (cf : List ℚ → List ℚ → Option ℚ) (p : Params) (curves : CurveMap) : Params :=
  match keyFind curves Chan.Cyan with
  | some cu => { p with cyanGamma := p.cyanGamma * fit_gamma cf cu.inp cu.out }
  | none => p

/-- Gamma-loop step for Magenta. -/
def gammaMagentaStep (cf : List ℚ → List ℚ → Option ℚ) (p : Params) (curves : CurveMap) : Params :=
  match keyFind curves Chan.Magenta with
  | some cu => { p with magentaGamma := p.magentaGamma * fit_gamma cf cu.inp cu.out }
  | none => p

/-- Gamma-loop step for Yellow. -/
def gammaYellowStep (cf : List ℚ → List ℚ → Option ℚ) (p : Params) (curves : CurveMap) : Params :=
  match keyFind curves Chan.Yellow with
  | some cu => { p with yellowGamma := p.yellowGamma * fit_gamma cf cu.inp cu.out }
  | none => p

/-- Gamma-loop step for Black. -/
def gammaBlackStep (cf : List ℚ → List ℚ → Option ℚ) (p : Params) (curves : CurveMap) : Params :=
  match keyFind curves Chan.Black with
  | some cu => { p with blackGamma := p.blackGamma * fit_gamma cf cu.inp cu.out }
  | none => p

/-- Light-ink step for Cyan: writes `LightCyanValue` when both the curve and
the DE response are present for the channel. -/
def lightCyanStep (p : Params) (curves de : CurveMap) : Params :=
  match keyFind curves Chan.Cyan, keyFind de Chan.Cyan with
  | some cu, some du =>
      { p with lightCyanValue :=
          analyze_light_ink cu.inp cu.out du.out p.lightCyanValue p.lightCyanTrans }
  | _, _ => p

/-- Light-ink step for Magenta. -/
def lightMagentaStep (p : Params) (curves de : CurveMap) : Params :=
  match keyFind curves Chan.Magenta, keyFind de Chan.Magenta with
  | some cu, some du =>
      { p with lightMagentaValue :=
          analyze_light_ink cu.inp cu.out du.out p.lightMagentaValue p.lightMagentaTrans }
  | _, _ => p

/-- Density step for Cyan: `params['CyanDensity'] *= analyze_density(...)`
when the DE response is present. -/
def densityCyanStep (p : Params) (de : CurveMap) : Params :=
  match keyFind de Chan.Cyan with
  | some du => { p with cyanDensity := p.cyanDensity * analyze_density du.inp du.out }
  | none => p

/-- Density step for Magenta. -/
def densityMagentaStep (p : Params) (de : CurveMap) : Params :=
  match keyFind de Chan.Magenta with
  | some du => { p with magentaDensity := p.magentaDensity * analyze_density du.inp du.out }
  | none => p

/-- Density step for Yellow. -/
def densityYellowStep (p : Params) (de : CurveMap) : Params :=
  match keyFind de Chan.Yellow with
  | some du => { p with yellowDensity := p.yellowDensity * analyze_density du.inp du.out }
  | none => p

/-- Density step for Black. -/
def densityBlackStep (p : Params) (de : CurveMap) : Params :=
  match keyFind de Chan.Black with
  | some du => { p with blackDensity := p.blackDensity * analyze_density du.inp du.out }
  | none => p

/-- One iteration of `process`'s per-file loop: guarded gamma updates for the
four channels, then the composite-gamma update — which indexes
`curves['Cyan']`, `curves['Magenta']`, `curves['Yellow']` without a guard
(`.error` models the `KeyError` that aborts the run) — then the guarded
light-ink and density updates. -/
def processFile (cf : List ℚ → List ℚ → Option ℚ) (p : Params) (curves de : CurveMap) :
    Except Unit Params :=
  let p1 := gammaBlackStep cf (gammaYellowStep cf (gammaMagentaStep cf
              (gammaCyanStep cf p curves) curves) curves) curves
  match keyFind curves Chan.Cyan, keyFind curves Chan.Magenta, keyFind curves Chan.Yellow with
  | some cC, some cM, some cY =>
      let g_c := fit_gamma cf cC.inp cC.out
      let g_m := fit_gamma cf cM.inp cM.out
      let g_y := fit_gamma cf cY.inp cY.out
      let avg_g := (g_c + g_m + g_y) / 3
      let p2 := { p1 with compositeGamma := p1.compositeGamma * avg_g }
      let p3 := lightMagentaStep (lightCyanStep p2 curves de) curves de
      Except.ok (densityBlackStep (densityYellowStep (densityMagentaStep
        (densityCyanStep p3 de) de) de) de)
  | _, _, _ => Except.error ()

/-- `process`'s fold over the input files (each given as its parsed
`(curves, de_resp)` pair), threading the Parameter Set. -/
def processFiles (cf : List ℚ → List ℚ → Option ℚ) :
    List (CurveMap × CurveMap) → Params → Except Unit Params
  | [], p => Except.ok p
  | f :: r, p =>
      match processFile cf p f.1 f.2 with
      | Except.error e => Except.error e
      | Except.ok q => processFiles cf r q

/-- The per-file Cyan/Magenta/Yellow/Black gamma estimate seen by `process`:
the fitted gamma when the channel is present, the neutral `1` when the
update is skipped. -/
def gEst (cf : List ℚ → List ℚ → Option ℚ) (curves : CurveMap) (c : Chan) : ℚ :=
  match keyFind curves c with
  | some cu => fit_gamma cf cu.inp cu.out
  | none => 1

/-- The per-file density estimate seen by `process`: `analyze_density` when
the DE response is present, the neutral `1` when the update is skipped. -/
def dEst (de : CurveMap) (c : Chan) : ℚ :=
  match keyFind de c with
  | some du => analyze_density du.inp du.out
  | none => 1

-- ----------------------------------------------------------------
-- cal2gutenprint_v0.py : parser
-- ----------------------------------------------------------------

/-- Python dict update `d[k] = v` over an insertion-ordered association
list. -/
def dictSet {K V : Type} [DecidableEq K] : List (K × V) → K → V → List (K × V)
  | [], k, v => [(k, v)]
  | (k0, v0) :: r, k, v => if k0 = k then (k, v) :: r else (k0, v0) :: dictSet r k v

/-- Python dict lookup `d[k]` as an option (`none` models `KeyError`). -/
def dictGet {K V : Type} [DecidableEq K] : List (K × V) → K → Option V
  | [], _ => none
  | (k0, v0) :: r, k => if k0 = k then some v0 else dictGet r k

/-- State of `parse_cal_blocks`: the `blocks` dict (keys are the quoted
descriptor names; the key is `none` while no DESCRIPTOR has been seen, since
Python happily uses `None` as a dict key at `END_DATA`), the current block
name, and the pending `data` rows. -/
structure V0St where
  blocks : List (Option Str × List (List ℚ))
  cur : Option Str
  data : List (List ℚ)
deriving DecidableEq, Repr

/-- Python truthiness of `current` in `parse_cal_blocks`: a non-`None`,
non-empty string. -/
def curTruthy (cur : Option Str) : Bool :=
  match cur with
  | none => false
  | some n => !n.isEmpty

/-- One line of `parse_cal_blocks`. `DESCRIPTOR` lines take the text between
the first pair of double quotes as the new block name (`.error` models the
`IndexError` when a DESCRIPTOR line has no quoted part); inside a truthy
block, a non-empty non-`#` line is appended as a data row iff every
whitespace token parses as a float — the `except ValueError: pass` silently
skips malformed rows. -/
def v0Step (st : V0St) (line0 : Str) : Except Unit V0St :=
  let line := pyStrip line0
  if "DESCRIPTOR".data.isPrefixOf line then
    match (splitCh '"' line).get? 1 with
    | none => Except.error ()
    | some name =>
        Except.ok ⟨dictSet st.blocks (some name) [], some name, []⟩
  else if line = "BEGIN_DATA".data then Except.ok { st with data := [] }
  else if line = "END_DATA".data then
    Except.ok { st with blocks := dictSet st.blocks st.cur st.data }
  else if curTruthy st.cur && !line.isEmpty && !("#".data.isPrefixOf line) then
    match parseRow line with
    | some row => Except.ok { st with data := st.data ++ [row] }
    | none => Except.ok st
  else Except.ok st

/-- Run `parse_cal_blocks`'s loop over all lines. -/
def v0Run : List Str → V0St → Except Unit V0St
  | [], st => Except.ok st
  | l :: r, st =>
      match v0Step st l with
      | Except.error e => Except.error e
      | Except.ok st2 => v0Run r st2

/-- `parse_cal_blocks(path)`: the final `blocks` dictionary. -/
def parse_cal_blocks (lines : List Str) : Except Unit (List (Option Str × List (List ℚ))) :=
  match v0Run lines ⟨[], none, []⟩ with
  | Except.error e => Except.error e
  | Except.ok st => Except.ok st.blocks

-- ----------------------------------------------------------------
-- cal2gutenprint_v0.py : estimators
-- ----------------------------------------------------------------

/-- `EPS = 1e-6` of `cal2gutenprint_v0.py`. -/
noncomputable def EPS : ℝ := 1 / 1000000

/-- `np.gradient` for a one-dimensional array: one-sided differences at the
ends, central differences inside. Meaningful for arrays of length at least 2
(numpy raises below that; that corner is never used below). Polymorphic so
the same algorithm serves the exact-rational theorems and the real-valued
pipeline. -/
def npGradient {α : Type} [LinearOrderedField α] (l : List α) : List α :=
  (List.range l.length).map fun i =>
    if i = 0 then l.getD 1 0 - l.getD 0 0
    else if i = l.length - 1 then l.getD (l.length - 1) 0 - l.getD (l.length - 2) 0
    else (l.getD (i + 1) 0 - l.getD (i - 1) 0) / 2

/-- `np.argmax`: index of the first occurrence of the maximum (0 on the
empty array, where numpy raises instead; never used below). -/
def argmax {α : Type} [LinearOrderedField α] (l : List α) : ℕ :=
  (List.range l.length).foldl (fun b i => if l.getD b 0 < l.getD i 0 then i else b) 0

/-- `np.argmin`: index of the first occurrence of the minimum. -/
def argmin {α : Type} [LinearOrderedField α] (l : List α) : ℕ :=
  (List.range l.length).foldl (fun b i => if l.getD i 0 < l.getD b 0 then i else b) 0

/-- `estimate_transition(I, O)`: input level at the argmax of the discrete
second derivative of `O`. -/
def estimate_transition {α : Type} [LinearOrderedField α] (I O : List α) : α :=
  I.getD (argmax (npGradient (npGradient O))) 0

/-- `smooth(prev, new, alpha)`: exponential smoothing between runs. -/
def smooth (prev new alpha : ℝ) : ℝ := alpha * new + (1 - alpha) * prev

/-- `estimate_density(O)`: `clip(1.0 / max(O[-1], EPS), 0.8, 1.2)`. `O[-1]`
raises `IndexError` on an empty array in the source; the claims restrict to
non-empty arrays, modelled by the `getLastD 0` default never being relied
on. -/
noncomputable def estimate_density (O : List ℝ) : ℝ :=
  min (max (1 / max (O.getLastD 0) EPS) (4/5)) (6/5)

/-- The `(0.05 < I) & (I < 0.95)` masked `((input, output), weight)` triples
of `estimate_gamma`. -/
noncomputable def gmask (I O ws : List ℝ) : List ((ℝ × ℝ) × ℝ) :=
  ((I.zip O).zip ws).filter fun t => decide (1/20 < t.1.1 ∧ t.1.1 < 19/20)

/-- The slope component of the weighted least-squares line that
`np.polyfit(x, y, 1, w)` solves (normal equations with effective weights
`w^2`, since polyfit scales both sides of the system by `w`). This closed
form is the unique solution whenever the masked inputs are not all equal;
polyfit's minimum-norm answer on a rank-deficient system is not modelled
and no theorem below touches that corner. Triples are `(w, x, y)`. -/
noncomputable def pfSlope (ts : List (ℝ × ℝ × ℝ)) : ℝ :=
  let sw := (ts.map fun t => t.1 ^ 2).sum
  let sx := (ts.map fun t => t.1 ^ 2 * t.2.1).sum
  let sy := (ts.map fun t => t.1 ^ 2 * t.2.2).sum
  let sxx := (ts.map fun t => t.1 ^ 2 * t.2.1 ^ 2).sum
  let sxy := (ts.map fun t => t.1 ^ 2 * t.2.1 * t.2.2).sum
  (sw * sxy - sx * sy) / (sw * sxx - sx ^ 2)

/-- `estimate_gamma(I, O, weights)`: log-log `np.polyfit` slope over the
masked samples; an absent `weights` is the unweighted fit (all weights 1).
`.error` models the `TypeError` `np.polyfit` raises when the mask leaves no
samples — the source has no try/except around it. -/
noncomputable def estimate_gamma (I O : List ℝ) (w : Option (List ℝ)) : Except Unit ℝ :=
  let ws := w.getD (List.replicate I.length 1)
  let pts := gmask I O ws
  if pts.isEmpty then Except.error ()
  else
    Except.ok (pfSlope (pts.map fun t =>
      (t.2, Real.log (t.1.1 + EPS), Real.log (t.1.2 + EPS))))

/-- `estimate_light_scale(I, O, T)`: mean of `O / (I + EPS)` over the
`0.05 < I < T` mask. The empty-mask corner (`np.mean([])` = NaN with a
runtime warning in numpy) appears here as `0/0 = 0`; no theorem below
evaluates that corner. -/
noncomputable def estimate_light_scale (I O : List ℝ) (T : ℝ) : ℝ :=
  let m := (I.zip O).filter fun t => decide (1/20 < t.1 ∧ t.1 < T)
  ((m.map fun t => t.2 / (t.1 + EPS)).sum) / (m.length : ℝ)

/-- `estimate_light_value(I, O, T)`: `O/ (I + EPS)` at the sample whose input
is closest to `T`. -/
noncomputable def estimate_light_value (I O : List ℝ) (T : ℝ) : ℝ :=
  let idx := argmin (I.map fun x => |x - T|)
  O.getD idx 0 / (I.getD idx 0 + EPS)

-- ----------------------------------------------------------------
-- cal2gutenprint_v0.py : main loop body
-- ----------------------------------------------------------------

/-- The v0 Parameter Set (same fifteen keys, defaults of `cal2gutenprint_v0`:
light values and scales start at 1.0 and the transitions at 0.5). -/
structure V0Params where
  lightCyanValue : ℝ
  lightCyanScale : ℝ
  lightCyanTrans : ℝ
  cyanGamma : ℝ
  cyanDensity : ℝ
  lightMagentaValue : ℝ
  lightMagentaScale : ℝ
  lightMagentaTrans : ℝ
  magentaGamma : ℝ
  magentaDensity : ℝ
  yellowGamma : ℝ
  yellowDensity : ℝ
  blackGamma : ℝ
  blackDensity : ℝ
  compositeGamma : ℝ

/-- The initial `params` dict of `cal2gutenprint_v0.main`. -/
noncomputable def v0Defaults : V0Params where
  lightCyanValue := 1
  lightCyanScale := 1
  lightCyanTrans := 1/2
  cyanGamma := 1
  cyanDensity := 1
  lightMagentaValue := 1
  lightMagentaScale := 1
  lightMagentaTrans := 1/2
  magentaGamma := 1
  magentaDensity := 1
  yellowGamma := 1
  yellowDensity := 1
  blackGamma := 1
  blackDensity := 1
  compositeGamma := 1

/-- Numpy column extraction over the real-valued tables fed to the v0 loop. -/
def colR (rows : List (List ℝ)) (j : ℕ) : List ℝ := rows.map fun r => r.getD j 0

/-- The curves-block key looked up by `main`. -/
def curvesKey : Option Str := some "Argyll Device Calibration Curves".data

/-- The DE-block key looked up by `main`. -/
def deKey : Option Str := some "Argyll Output Calibration Expected DE Response".data

/-- Python dict lookup raising `KeyError` on a missing key, in the `Except`
monad. -/
def keyGetE {V : Type} (blocks : List (Option Str × V)) (k : Option Str) : Except Unit V :=
  match dictGet blocks k with
  | some v => Except.ok v
  | none => Except.error ()

/-- One iteration of `cal2gutenprint_v0.main`'s per-file loop over an
already-parsed `blocks` dictionary. The two block lookups are unguarded
(`KeyError` aborts, modelled by `.error`), and any `np.polyfit` failure
inside `estimate_gamma` propagates. Updates follow the source order:
Cyan (trans, scale, value, gamma, density), Magenta, Yellow, Black, then
the composite gamma fitted on the per-sample mean of columns 1..3. -/
noncomputable def v0Update (alpha : ℝ) (blocks : List (Option Str × List (List ℝ)))
    (p : V0Params) : Except Unit V0Params :=
  (keyGetE blocks curvesKey).bind fun curves =>
  (keyGetE blocks deKey).bind fun de =>
  let I := colR curves 0
  let weights := de.map fun r => 1 / (1 + r.getD 1 0)
  let C := colR curves 1
  let tC := estimate_transition I C
  (estimate_gamma I C (some weights)).bind fun gC =>
  let p1 : V0Params :=
    { p with
      lightCyanTrans := smooth p.lightCyanTrans tC alpha
      lightCyanScale := smooth p.lightCyanScale (estimate_light_scale I C tC) alpha
      lightCyanValue := smooth p.lightCyanValue (estimate_light_value I C tC) alpha
      cyanGamma := smooth p.cyanGamma gC alpha
      cyanDensity := smooth p.cyanDensity (estimate_density C) alpha }
  let M := colR curves 2
  let tM := estimate_transition I M
  (estimate_gamma I M (some weights)).bind fun gM =>
  let p2 : V0Params :=
    { p1 with
      lightMagentaTrans := smooth p1.lightMagentaTrans tM alpha
      lightMagentaScale := smooth p1.lightMagentaScale (estimate_light_scale I M tM) alpha
      lightMagentaValue := smooth p1.lightMagentaValue (estimate_light_value I M tM) alpha
      magentaGamma := smooth p1.magentaGamma gM alpha
      magentaDensity := smooth p1.magentaDensity (estimate_density M) alpha }
  let Y := colR curves 3
  (estimate_gamma I Y none).bind fun gY =>
  let p3 : V0Params :=
    { p2 with
      yellowGamma := smooth p2.yellowGamma gY alpha
      yellowDensity := smooth p2.yellowDensity (estimate_density Y) alpha }
  let Kc := colR curves 4
  (estimate_gamma I Kc none).bind fun gK =>
  let p4 : V0Params :=
    { p3 with
      blackGamma := smooth p3.blackGamma gK alpha
      blackDensity := smooth p3.blackDensity (estimate_density Kc) alpha }
  let gray := curves.map fun r => (r.getD 1 0 + r.getD 2 0 + r.getD 3 0) / 3
  (estimate_gamma I gray none).bind fun gG =>
  Except.ok { p4 with compositeGamma := smooth p4.compositeGamma gG alpha }

-- ----------------------------------------------------------------
-- Concrete inputs used by the claim evaluations
-- ----------------------------------------------------------------

/-- A `.cal` file whose device-calibration-curves block is entirely absent:
only the expected-DE-response block is present. -/
def c1Lines : List Str :=
  [ "CAL".data,
    "DESCRIPTOR \"Argyll Output Calibration Expected DE Response\"".data,
    "BEGIN_DATA".data,
    "1 1 1 1 1".data,
    "END_DATA".data ]

/-- A curves-block file containing one integer data row and one fully
numeric row that starts with a decimal point. -/
def c3LinesA : List Str :=
  [ "DESCRIPTOR \"Argyll Device Calibration Curves\"".data,
    "BEGIN_DATA".data,
    "1 1 1 1 1".data,
    ".5 .5 .5 .5 .5".data,
    "END_DATA".data ]

/-- A curves-block file whose data row contains a malformed token. -/
def c3LinesB : List Str :=
  [ "DESCRIPTOR \"Argyll Device Calibration Curves\"".data,
    "BEGIN_DATA".data,
    "1 abc".data ]

/-- A fit oracle that always fails, so that every `fit_gamma` estimate is
the neutral 1. -/
def wCf : List ℚ → List ℚ → Option ℚ := fun _ _ => none

/-- A curves dictionary holding a one-sample curve for all four channels. -/
def wCm : CurveMap :=
  [ (Chan.Cyan, ⟨[1], [1]⟩), (Chan.Magenta, ⟨[1], [1]⟩),
    (Chan.Yellow, ⟨[1], [1]⟩), (Chan.Black, ⟨[1], [1]⟩) ]

/-- A one-file run: full curves dictionary, no DE-response block. -/
def wFs : List (CurveMap × CurveMap) := [(wCm, [])]

/-- Output level `0.999999`, chosen so that the `+EPS` shift inside
`estimate_gamma` lands exactly on 1. -/
noncomputable def oA1 : ℝ := 999999/1000000

/-- Output level `1.999999`, shifted by `EPS` to exactly 2. -/
noncomputable def oA2 : ℝ := 1999999/1000000

/-- The curves table of the C5 counterexample file: columns are input, C, M,
Y, K. Rows 3 and 4 fall outside the gamma mask (inputs 0.95 and 0.96). -/
noncomputable def cxCurves : List (List ℝ) :=
  [ [1/10, oA1, oA1, oA1, oA1],
    [1/2, oA2, oA2, oA1, oA2],
    [19/20, 0, 0, 1, 0],
    [24/25, 10, 10, 1, 10] ]

/-- The DE table of the C5 counterexample file: constant error column 1, so
the fit weights are the constant 1/2. -/
noncomputable def cxDe : List (List ℝ) :=
  [ [1/10, 1], [1/2, 1], [19/20, 1], [24/25, 1] ]

/-- The parsed blocks dictionary of the C5 counterexample file. -/
noncomputable def cxBlocks : List (Option Str × List (List ℝ)) :=
  [ (curvesKey, cxCurves), (deKey, cxDe) ]

/-- Input column of the counterexample file. -/
noncomputable def cxI : List ℝ := [1/10, 1/2, 19/20, 24/25]

/-- Cyan column. -/
noncomputable def cxC : List ℝ := [oA1, oA2, 0, 10]

/-- Magenta column (identical to Cyan). -/
noncomputable def cxM : List ℝ := [oA1, oA2, 0, 10]

/-- Yellow column (constant over the masked samples). -/
noncomputable def cxY : List ℝ := [oA1, oA1, 1, 1]

/-- Black column. -/
noncomputable def cxK : List ℝ := [oA1, oA2, 0, 10]

/-- The per-sample chromatic mean curve `np.mean(curves[:,1:4], axis=1)`. -/
noncomputable def cxGray : List ℝ := [oA1, 4999997/3000000, 1/3, 7]

/-- The fit weights `1/(1 + de[:,1])`. -/
noncomputable def cxW : List ℝ := [1/2, 1/2, 1/2, 1/2]

/-- The log-domain x-spread of the two masked samples. -/
noncomputable def cxD : ℝ := Real.log (500001/1000000) - Real.log (100001/1000000)

-- ----------------------------------------------------------------
-- Claim theorems
-- ----------------------------------------------------------------

/-- C8: the exponential smoothing rule `smooth(old, estimate, alpha) =
alpha * estimate + (1 - alpha) * old` leaves every state fixed when the
estimate equals the state, and with `alpha = 1` returns the estimate
regardless of the old state. -/
theorem c8_smoothing_identity :
    (∀ s alpha : ℝ, smooth s s alpha = s) ∧ (∀ prev e : ℝ, smooth prev e 1 = e) := by
  constructor <;> intros <;> simp [smooth] <;> ring

/-- C10: on every non-empty output array the v0 density estimator returns
`1 / max(O[-1], 1e-6)` clipped to `[0.8, 1.2]`; the result always lies in
that interval and depends only on the final sample (in particular not on
the error-response curve, which `estimate_density` never receives). -/
theorem c10_density_clip : ∀ O Oq : List ℝ, O ≠ [] → Oq ≠ [] →
    (estimate_density O = min (max (1 / max (O.getLastD 0) EPS) (4/5)) (6/5)) ∧
    (4/5 ≤ estimate_density O ∧ estimate_density O ≤ 6/5) ∧
    (O.getLastD 0 = Oq.getLastD 0 → estimate_density O = estimate_density Oq) := by
  intro O Oq _ _
  refine ⟨rfl, ⟨?_, ?_⟩, ?_⟩
  · exact le_min (le_trans (le_max_right _ _) (le_refl _)) (by norm_num)
  · exact min_le_right _ _
  · intro h
    simp only [estimate_density]
    rw [h]

/-- C10 witness: at the concrete array `[1/2]` the hypotheses hold and the
bounds follow. -/
theorem c10_density_clip_witness :
    ((([(1 : ℝ)/2]) : List ℝ) ≠ []) ∧
    (4/5 ≤ estimate_density [(1 : ℝ)/2] ∧ estimate_density [(1 : ℝ)/2] ≤ 6/5) :=
  ⟨by simp, (c10_density_clip [(1 : ℝ)/2] [(1 : ℝ)/2] (by simp) (by simp)).2.1⟩

/-- Evaluation helper: the masked samples of the C4 counterexample input. -/
theorem c4mask_eval : densMask [0, 19/20, 1] [0, 100, 0] = [(19/20, 100), (1, 0)] := by
  norm_num [densMask, List.zip_cons_cons, List.filter_cons, decide_eq_true_eq]

/-- Evaluation helper: the saturation slope of the C4 counterexample input. -/
theorem c4slope_eval : densSlope [0, 19/20, 1] [0, 100, 0] = -2000 := by
  norm_num [densSlope, c4mask_eval, List.getLastD]

/-- C4 counterexample: on `inp = [0, 0.95, 1]`, `de = [0, 100, 0]` two
samples lie above input level 0.9 and the slope over the top range is
`-2000`, whose magnitude is far above the threshold 10 — yet
`analyze_density` returns the reduction factor `0.95 < 1`, because the
source compares the signed slope, not its magnitude, against the
threshold. -/
theorem c4_counterexample :
    analyze_density [0, 19/20, 1] [0, 100, 0] = 19/20 ∧
    densSlope [0, 19/20, 1] [0, 100, 0] = -2000 ∧
    ¬ |densSlope [0, 19/20, 1] [0, 100, 0]| < 10 := by
  refine ⟨?_, c4slope_eval, ?_⟩
  · norm_num [analyze_density, c4mask_eval, c4slope_eval]
  · rw [c4slope_eval]
    norm_num

/-- C4 amended: `analyze_density` returns 1.0 whenever fewer than 2 samples
have input level above 0.9; otherwise it returns a factor strictly below
1.0 exactly when the signed slope of the error curve (from the first sample
above 0.9 to the final sample) is below the fixed threshold 10, and 1.0
otherwise. -/
theorem c4_density_threshold : ∀ inp de_curve : List ℚ,
    ((densMask inp de_curve).length < 2 → analyze_density inp de_curve = 1) ∧
    (2 ≤ (densMask inp de_curve).length →
      (analyze_density inp de_curve < 1 ↔ densSlope inp de_curve < 10) ∧
      (¬ densSlope inp de_curve < 10 → analyze_density inp de_curve = 1)) := by
  intro inp de
  constructor
  · intro h
    simp [analyze_density, h]
  · intro h
    have hlt : ¬ (densMask inp de).length < 2 := by omega
    refine ⟨⟨fun hres => ?_, fun hs => ?_⟩, fun hs => ?_⟩
    · by_contra hs
      simp [analyze_density, hlt, hs] at hres
    · simp only [analyze_density, if_neg hlt, if_pos hs]
      norm_num
    · simp [analyze_density, hlt, hs]

/-- Evaluation helper: the masked samples of the C4 witness input. -/
theorem c4wmask_eval : densMask [19/20, 1] [0, 100] = [(19/20, 0), (1, 100)] := by
  norm_num [densMask, List.zip_cons_cons, List.filter_cons, decide_eq_true_eq]

/-- C4 witness: with `inp = [0.95, 1]`, `de = [0, 100]` the mask has two
samples, the slope is 2000 (not below the threshold), and the factor is
1.0. -/
theorem c4_density_threshold_witness :
    2 ≤ (densMask [19/20, 1] [0, 100]).length ∧
    ¬ densSlope [19/20, 1] [0, 100] < 10 ∧
    analyze_density [19/20, 1] [0, 100] = 1 := by
  have h2 : 2 ≤ (densMask [19/20, 1] [0, 100]).length := by rw [c4wmask_eval]; norm_num
  have hse : densSlope ([19/20, 1] : List ℚ) [0, 100] = 2000 := by
    norm_num [densSlope, c4wmask_eval, List.getLastD]
  have hs : ¬ densSlope ([19/20, 1] : List ℚ) [0, 100] < 10 := by rw [hse]; norm_num
  exact ⟨h2, hs, ((c4_density_threshold [19/20, 1] [0, 100]).2 h2).2 hs⟩

/-- C2 counterexample: on `I = [0.96]`, `O = [1]` no sample survives the
`0.05 < I < 0.95` mask, and `estimate_gamma` propagates the `np.polyfit`
`TypeError` (modelled as `.error`) instead of returning a scalar — the
smoothing-variant gamma fit has no try/except and no neutral fallback. -/
theorem c2_counterexample : estimate_gamma [(24/25 : ℝ)] [1] none = Except.error () := by
  have hm : gmask [(24/25 : ℝ)] [1] [1] = [] := by
    norm_num [gmask, List.zip_cons_cons, List.filter_cons, decide_eq_true_eq]
  simp [estimate_gamma, List.replicate_one, hm]

/-- C2 amended: the multiplicative-variant `fit_gamma` is total and returns
the neutral default 1.0 whenever the underlying `curve_fit` call fails,
while the smoothing-variant `estimate_gamma` returns an `ok` scalar exactly
when at least one sample survives the mask, and raises (propagates
`.error`) when the mask is empty — it has no 1.0 fallback. -/
theorem c2_gamma_fallbacks :
    (∀ (cf : List ℚ → List ℚ → Option ℚ) (x y : List ℚ),
      cf (x.map fun v => v + qeps) (y.map fun v => v + qeps) = none → fit_gamma cf x y = 1) ∧
    (∀ (I O : List ℝ) (w : Option (List ℝ)),
      gmask I O (w.getD (List.replicate I.length 1)) ≠ [] →
        ∃ g, estimate_gamma I O w = Except.ok g) ∧
    (∀ (I O : List ℝ) (w : Option (List ℝ)),
      gmask I O (w.getD (List.replicate I.length 1)) = [] →
        estimate_gamma I O w = Except.error ()) := by
  refine ⟨fun cf x y h => ?_, fun I O w h => ?_, fun I O w h => ?_⟩
  · simp [fit_gamma, h]
  · simp only [estimate_gamma]
    rw [if_neg (by simpa [List.isEmpty_iff] using h)]
    exact ⟨_, rfl⟩
  · simp only [estimate_gamma]
    rw [if_pos (by simpa [List.isEmpty_iff] using h)]

/-- C2 witness: a failing `curve_fit` oracle yields `fit_gamma = 1`, and the
empty input raises in `estimate_gamma`. -/
theorem c2_gamma_fallbacks_witness :
    fit_gamma (fun _ _ => none) [1] [1] = 1 ∧
    estimate_gamma [] [] none = Except.error () :=
  ⟨c2_gamma_fallbacks.1 (fun _ _ => none) [1] [1] rfl,
   c2_gamma_fallbacks.2.2 [] [] none (by simp [gmask])⟩

/-- Evaluation helper: the mantissa of the token `1`. -/
theorem parseMant_one : parseMant ['1'] = some 1 := by
  have h : parseMant ['1'] = some ((digitsVal ['1'] : ℕ) : ℚ) := by
    simp only [parseMant]
    rw [show splitCh '.' ['1'] = [['1']] from by decide]
    rfl
  rw [h, show digitsVal ['1'] = 1 from by decide]
  norm_num

/-- Evaluation helper: `float("1") = 1.0`. -/
theorem parseFloat_one : parseFloat ['1'] = some 1 := by
  have h : parseFloat ['1'] = (parseMant ['1']).map fun q => ((1:ℤ) : ℚ) * q := by
    simp only [parseFloat]
    rw [show (['1'].map Char.toLower) = ['1'] from by decide]
    rw [show pySign ['1'] = ((1:ℤ), ['1']) from by decide]
    rw [show splitCh 'e' ['1'] = [['1']] from by decide]
  rw [h, parseMant_one]
  norm_num

/-- Evaluation helper: the row `1 1 1 1 1` parses to five ones. -/
theorem parseRow_ones :
    parseRow (pyStrip ['1', ' ', '1', ' ', '1', ' ', '1', ' ', '1']) = some [1, 1, 1, 1, 1] := by
  simp only [parseRow]
  rw [show pyTokens (pyStrip ['1', ' ', '1', ' ', '1', ' ', '1', ' ', '1'])
      = [['1'], ['1'], ['1'], ['1'], ['1']] from by decide]
  simp [parseFloats, parseFloat_one]

/-- C1: a file without the device-calibration-curves block parses to an
empty `curves` dictionary, and on an empty `curves` dictionary the
per-file update of `process` aborts with a `KeyError` (the unguarded
`curves['Cyan']` of the composite-gamma step) for every fit oracle, every
parameter state and every DE dictionary — instead of skipping the missing
block's updates and completing the file as the specification requires. -/
theorem c1_missing_curves_aborts :
    parse_cal_file c1Lines = Except.ok ([], mkMap [[1, 1, 1, 1, 1]]) ∧
    ∀ (cf : List ℚ → List ℚ → Option ℚ) (p : Params) (de : CurveMap),
      processFile cf p [] de = Except.error () := by
  constructor
  · simp +decide only [parse_cal_file, pcfData, pcfRun, pcfStep, c1Lines, parseRow_ones,
      firstIsDigit, if_true, if_false, mkMap, List.nil_append]
  · intro cf p de
    simp [processFile, gammaCyanStep, gammaMagentaStep, gammaYellowStep, gammaBlackStep, keyFind]

/-- C3 counterexample: in `parse_cal_file`'s block loop, the line
`.5 .5 .5 .5 .5` inside the active curves block tokenizes entirely into
numeric fields yet is not included as a data row (the parser demands a
leading decimal digit), and the digit-leading line `1 abc` raises an
uncaught `ValueError` that aborts parsing rather than being silently
skipped. -/
theorem c3_counterexample :
    pcfData c3LinesA = Except.ok ([[1, 1, 1, 1, 1]], []) ∧
    (pyTokens (pyStrip ".5 .5 .5 .5 .5".data)).all (fun t => (parseFloat t).isSome) = true ∧
    pcfData c3LinesB = Except.error () := by
  refine ⟨?_, by decide, by rfl⟩
  simp +decide only [pcfData, pcfRun, pcfStep, c3LinesA, parseRow_ones,
    firstIsDigit, if_true, if_false, List.nil_append]

/-- C3 amended: in the v0 parser `parse_cal_blocks`, for every line inside a
truthy block that is not a `DESCRIPTOR`/`BEGIN_DATA`/`END_DATA` marker, is
non-empty after stripping and is not a `#` comment, the line is appended as
a data row exactly when every whitespace-separated token parses as a float
(the row is `(parseRow line).toList`, i.e. nothing is appended on a
`ValueError`), and the parser state is otherwise unchanged — malformed rows
are silently skipped and parsing continues without raising. -/
theorem c3_row_filter : ∀ (st : V0St) (line0 n : Str),
    st.cur = some n → n ≠ [] →
    "DESCRIPTOR".data.isPrefixOf (pyStrip line0) = false →
    pyStrip line0 ≠ "BEGIN_DATA".data →
    pyStrip line0 ≠ "END_DATA".data →
    pyStrip line0 ≠ [] →
    "#".data.isPrefixOf (pyStrip line0) = false →
    v0Step st line0 = Except.ok { st with data := st.data ++ (parseRow (pyStrip line0)).toList } := by
  intro st line0 n hcur hn h1 h2 h3 h4 h5
  simp only [v0Step]
  rw [if_neg (by simp [h1]), if_neg h2, if_neg h3,
    if_pos (by simp [curTruthy, hcur, h5, List.isEmpty_iff, hn, h4])]
  cases hp : parseRow (pyStrip line0) with
  | none => simp
  | some row => simp

/-- C3 witness: a data line of ones inside a truthy block is appended as the
parsed row. -/
theorem c3_row_filter_witness :
    v0Step ⟨[], some ['B'], []⟩ ['1', ' ', '1', ' ', '1', ' ', '1', ' ', '1']
      = Except.ok ⟨[], some ['B'], [[1, 1, 1, 1, 1]]⟩ := by
  have h := c3_row_filter ⟨[], some ['B'], []⟩ ['1', ' ', '1', ' ', '1', ' ', '1', ' ', '1'] ['B']
    rfl (by decide) (by decide) (by decide) (by decide) (by decide) (by decide)
  rw [h, parseRow_ones]
  simp

/-- Field tracking through one `process` iteration: on success the Cyan
gamma and density are multiplied by their per-file estimates, the composite
gamma by the mean of the three chromatic estimates, and the light
scale/transition parameters are untouched. -/
theorem processFile_fields (cf : List ℚ → List ℚ → Option ℚ) (p : Params) (cm dm : CurveMap)
    (q : Params) (h : processFile cf p cm dm = Except.ok q) :
    q.cyanGamma = p.cyanGamma * gEst cf cm Chan.Cyan ∧
    q.cyanDensity = p.cyanDensity * dEst dm Chan.Cyan ∧
    q.compositeGamma = p.compositeGamma *
      ((gEst cf cm Chan.Cyan + gEst cf cm Chan.Magenta + gEst cf cm Chan.Yellow) / 3) ∧
    q.lightCyanScale = p.lightCyanScale ∧ q.lightCyanTrans = p.lightCyanTrans ∧
    q.lightMagentaScale = p.lightMagentaScale ∧ q.lightMagentaTrans = p.lightMagentaTrans := by
  simp only [processFile] at h
  cases hC : keyFind cm Chan.Cyan with
  | none => rw [hC] at h; simp at h
  | some cC =>
  cases hM : keyFind cm Chan.Magenta with
  | none => rw [hC, hM] at h; simp at h
  | some cM =>
  cases hY : keyFind cm Chan.Yellow with
  | none => rw [hC, hM, hY] at h; simp at h
  | some cY =>
  rw [hC, hM, hY] at h
  simp only [Except.ok.injEq] at h
  subst h
  cases hB : keyFind cm Chan.Black <;>
  cases hdC : keyFind dm Chan.Cyan <;>
  cases hdM : keyFind dm Chan.Magenta <;>
  cases hdY : keyFind dm Chan.Yellow <;>
  cases hdK : keyFind dm Chan.Black <;>
    simp [gammaCyanStep, gammaMagentaStep, gammaYellowStep, gammaBlackStep,
      lightCyanStep, lightMagentaStep, densityCyanStep, densityMagentaStep,
      densityYellowStep, densityBlackStep, gEst, dEst, hC, hM, hY, hB, hdC, hdM, hdY, hdK]

/-- One `process` iteration succeeds whenever the three chromatic channels
are present in the curves dictionary. -/
theorem processFile_ok (cf : List ℚ → List ℚ → Option ℚ) (p : Params) (cm dm : CurveMap)
    (hC : (keyFind cm Chan.Cyan).isSome) (hM : (keyFind cm Chan.Magenta).isSome)
    (hY : (keyFind cm Chan.Yellow).isSome) :
    ∃ q, processFile cf p cm dm = Except.ok q := by
  simp only [processFile]
  cases hc : keyFind cm Chan.Cyan with
  | none => rw [hc] at hC; simp at hC
  | some cC =>
  cases hm : keyFind cm Chan.Magenta with
  | none => rw [hm] at hM; simp at hM
  | some cM =>
  cases hy : keyFind cm Chan.Yellow with
  | none => rw [hy] at hY; simp at hY
  | some cY => exact ⟨_, rfl⟩

/-- Pulling a left-fold's initial value out of a product fold. -/
theorem foldl_mul_init : ∀ (l : List ℚ) (a : ℚ),
    List.foldl (fun x g => x * g) a l = a * List.foldl (fun x g => x * g) 1 l := by
  intro l
  induction l with
  | nil => intro a; simp
  | cons g r ih =>
    intro a
    rw [List.foldl_cons, List.foldl_cons, ih (a * g), ih (1 * g)]
    ring

/-- The cumulative Cyan gamma across a run of files whose chromatic
channels are all present: the left-fold product of the per-file
estimates. -/
theorem processFiles_cyan_fold (cf : List ℚ → List ℚ → Option ℚ) :
    ∀ (fs : List (CurveMap × CurveMap)) (p : Params),
    (∀ f ∈ fs, (keyFind f.1 Chan.Cyan).isSome ∧ (keyFind f.1 Chan.Magenta).isSome ∧
      (keyFind f.1 Chan.Yellow).isSome) →
    ∃ q, processFiles cf fs p = Except.ok q ∧
      q.cyanGamma = p.cyanGamma *
        List.foldl (fun a g => a * g) 1 (fs.map fun f => gEst cf f.1 Chan.Cyan) := by
  intro fs
  induction fs with
  | nil =>
    intro p _
    exact ⟨p, rfl, by simp⟩
  | cons f r ih =>
    intro p h
    obtain ⟨hC, hM, hY⟩ := h f (by simp)
    obtain ⟨q1, hq1⟩ := processFile_ok cf p f.1 f.2 hC hM hY
    obtain ⟨q, hq, hg⟩ := ih q1 (fun g hgm => h g (by simp [hgm]))
    refine ⟨q, ?_, ?_⟩
    · simp [processFiles, hq1, hq]
    · rw [hg, (processFile_fields cf p f.1 f.2 q1 hq1).1, List.map_cons, List.foldl_cons,
        foldl_mul_init _ (1 * gEst cf f.1 Chan.Cyan)]
      ring

/-- The light scale and transition fields pass through a run of `process`
iterations unchanged. -/
theorem processFiles_frame (cf : List ℚ → List ℚ → Option ℚ) :
    ∀ (fs : List (CurveMap × CurveMap)) (p q : Params),
    processFiles cf fs p = Except.ok q →
    q.lightCyanScale = p.lightCyanScale ∧ q.lightCyanTrans = p.lightCyanTrans ∧
    q.lightMagentaScale = p.lightMagentaScale ∧ q.lightMagentaTrans = p.lightMagentaTrans := by
  intro fs
  induction fs with
  | nil =>
    intro p q h
    simp only [processFiles, Except.ok.injEq] at h
    subst h
    exact ⟨rfl, rfl, rfl, rfl⟩
  | cons f r ih =>
    intro p q h
    simp only [processFiles] at h
    cases hx : processFile cf p f.1 f.2 with
    | error e => rw [hx] at h; simp at h
    | ok q1 =>
      rw [hx] at h
      obtain ⟨e1, e2, e3, e4⟩ := ih q1 q h
      have hf := processFile_fields cf p f.1 f.2 q1 hx
      exact ⟨e1.trans hf.2.2.2.1, e2.trans hf.2.2.2.2.1,
        e3.trans hf.2.2.2.2.2.1, e4.trans hf.2.2.2.2.2.2⟩

/-- C5 amended: in the multiplicative variant, every successful `process`
iteration multiplies `CompositeGamma` by the arithmetic mean of the three
chromatic per-channel gamma estimates (each fitted on its own curve), the
same multiplicative update rule applied to the per-channel gammas. (The
smoothing variant instead fits its composite gamma on the per-sample mean
curve — see the counterexample.) -/
theorem c5_composite_mean : ∀ (cf : List ℚ → List ℚ → Option ℚ) (p : Params)
    (cm dm : CurveMap) (q : Params),
    processFile cf p cm dm = Except.ok q →
    q.compositeGamma = p.compositeGamma *
      ((gEst cf cm Chan.Cyan + gEst cf cm Chan.Magenta + gEst cf cm Chan.Yellow) / 3) :=
  fun cf p cm dm q h => (processFile_fields cf p cm dm q h).2.2.1

/-- Evaluation helper: with the failing oracle every estimate is 1 and the
witness file leaves the Parameter Set at its defaults. -/
theorem wFile_eval : processFile wCf DEFAULT_PARAMS wCm [] = Except.ok DEFAULT_PARAMS := by
  norm_num [processFile, gammaCyanStep, gammaMagentaStep, gammaYellowStep, gammaBlackStep,
    lightCyanStep, lightMagentaStep, densityCyanStep, densityMagentaStep, densityYellowStep,
    densityBlackStep, keyFind, wCm, wCf, fit_gamma, DEFAULT_PARAMS]

/-- Evaluation helper: the one-file witness run returns the defaults. -/
theorem wRun_eval : processFiles wCf wFs DEFAULT_PARAMS = Except.ok DEFAULT_PARAMS := by
  simp [processFiles, wFs, wFile_eval]

/-- C5 witness: on the witness file the composite gamma equals the old value
times the mean of the three (neutral) chromatic estimates. -/
theorem c5_composite_mean_witness :
    processFile wCf DEFAULT_PARAMS wCm [] = Except.ok DEFAULT_PARAMS ∧
    DEFAULT_PARAMS.compositeGamma = DEFAULT_PARAMS.compositeGamma *
      ((gEst wCf wCm Chan.Cyan + gEst wCf wCm Chan.Magenta + gEst wCf wCm Chan.Yellow) / 3) :=
  ⟨wFile_eval, c5_composite_mean wCf DEFAULT_PARAMS wCm [] DEFAULT_PARAMS wFile_eval⟩

/-- C6: under the multiplicative update policy, an estimate of 1.0 is an
identity for the gamma and density parameters, and across any run whose
files all carry the chromatic channels the final Cyan gamma is the initial
default multiplied by the left-fold product of the per-file estimates. -/
theorem c6_multiplicative_fold : ∀ (cf : List ℚ → List ℚ → Option ℚ)
    (fs : List (CurveMap × CurveMap)),
    (∀ f ∈ fs, (keyFind f.1 Chan.Cyan).isSome ∧ (keyFind f.1 Chan.Magenta).isSome ∧
      (keyFind f.1 Chan.Yellow).isSome) →
    ((processFiles cf fs DEFAULT_PARAMS).map Params.cyanGamma = Except.ok
      (DEFAULT_PARAMS.cyanGamma *
        List.foldl (fun a g => a * g) 1 (fs.map fun f => gEst cf f.1 Chan.Cyan))) ∧
    (∀ (p : Params) (cm dm : CurveMap) (q : Params), processFile cf p cm dm = Except.ok q →
      (gEst cf cm Chan.Cyan = 1 → q.cyanGamma = p.cyanGamma) ∧
      (dEst dm Chan.Cyan = 1 → q.cyanDensity = p.cyanDensity)) := by
  intro cf fs h
  constructor
  · obtain ⟨q, hq, hg⟩ := processFiles_cyan_fold cf fs DEFAULT_PARAMS h
    rw [hq]
    simp [Except.map, hg]
  · intro p cm dm q hq
    have hf := processFile_fields cf p cm dm q hq
    exact ⟨fun h1 => by rw [hf.1, h1, mul_one], fun h1 => by rw [hf.2.1, h1, mul_one]⟩

/-- C6 witness: the one-file witness run with the failing oracle gives
Cyan gamma `1 * (1) = 1`. -/
theorem c6_multiplicative_fold_witness :
    (processFiles wCf wFs DEFAULT_PARAMS).map Params.cyanGamma = Except.ok
      (DEFAULT_PARAMS.cyanGamma *
        List.foldl (fun a g => a * g) 1 (wFs.map fun f => gEst wCf f.1 Chan.Cyan)) :=
  (c6_multiplicative_fold wCf wFs (by decide)).1

/-- C9: in the multiplicative variant no per-file update ever writes
`LightCyanScale`, `LightCyanTrans`, `LightMagentaScale` or
`LightMagentaTrans`: whenever a run completes, those four parameters still
hold their initial defaults 1.0, 0.6, 1.0 and 0.6. -/
theorem c9_light_params_frame : ∀ (cf : List ℚ → List ℚ → Option ℚ)
    (fs : List (CurveMap × CurveMap)) (p : Params),
    processFiles cf fs DEFAULT_PARAMS = Except.ok p →
    p.lightCyanScale = 1 ∧ p.lightCyanTrans = 3/5 ∧
    p.lightMagentaScale = 1 ∧ p.lightMagentaTrans = 3/5 := by
  intro cf fs p h
  obtain ⟨e1, e2, e3, e4⟩ := processFiles_frame cf fs DEFAULT_PARAMS p h
  exact ⟨e1, e2, e3, e4⟩

/-- C9 witness: the witness run completes and the four light parameters are
still at their defaults. -/
theorem c9_light_params_frame_witness :
    processFiles wCf wFs DEFAULT_PARAMS = Except.ok DEFAULT_PARAMS ∧
    DEFAULT_PARAMS.lightCyanScale = 1 ∧ DEFAULT_PARAMS.lightCyanTrans = 3/5 ∧
    DEFAULT_PARAMS.lightMagentaScale = 1 ∧ DEFAULT_PARAMS.lightMagentaTrans = 3/5 :=
  ⟨wRun_eval, c9_light_params_frame wCf wFs DEFAULT_PARAMS wRun_eval⟩

/-- `getD` of a map over `List.range`. -/
theorem map_range_getD {α : Type} (n i : ℕ) (f : ℕ → α) (d : α) (hi : i < n) :
    ((List.range n).map f).getD i d = f i := by
  simp [List.getD_eq_getElem?_getD, List.getElem?_range hi]

/-- `np.gradient` preserves length. -/
theorem npGradient_length {α : Type} [LinearOrderedField α] (l : List α) :
    (npGradient l).length = l.length := by
  simp [npGradient]

/-- Pointwise description of `np.gradient`. -/
theorem npGradient_getD {α : Type} [LinearOrderedField α] (l : List α) (i : ℕ)
    (hi : i < l.length) :
    (npGradient l).getD i 0 =
      if i = 0 then l.getD 1 0 - l.getD 0 0
      else if i = l.length - 1 then l.getD (l.length - 1) 0 - l.getD (l.length - 2) 0
      else (l.getD (i + 1) 0 - l.getD (i - 1) 0) / 2 := by
  simp only [npGradient]
  rw [map_range_getD _ _ _ _ hi]

/-- The running best index of `np.argmax`'s fold stays below the scanned
prefix length. -/
theorem argmax_fold_lt {α : Type} [LinearOrderedField α] (l : List α) :
    ∀ m : ℕ, 0 < m →
      List.foldl (fun b i => if l.getD b 0 < l.getD i 0 then i else b) 0 (List.range m) < m := by
  intro m
  induction m with
  | zero => omega
  | succ m ih =>
    intro _
    rw [List.range_succ, List.foldl_append, List.foldl_cons, List.foldl_nil]
    rcases Nat.eq_zero_or_pos m with hm | hm
    · subst hm
      simp only [List.range_zero, List.foldl_nil]
      split <;> omega
    · have hB := ih hm
      split <;> omega

/-- Scanning the first `k+1` indices lands on `k` when `k` strictly
dominates everything before it. -/
theorem argmax_fold_upto {α : Type} [LinearOrderedField α] (l : List α) (k : ℕ)
    (hmax : ∀ j, j < k → l.getD j 0 < l.getD k 0) :
    List.foldl (fun b i => if l.getD b 0 < l.getD i 0 then i else b) 0 (List.range (k + 1)) = k := by
  rw [List.range_succ, List.foldl_append, List.foldl_cons, List.foldl_nil]
  rcases Nat.eq_zero_or_pos k with hk | hk
  · subst hk
    simp only [List.range_zero, List.foldl_nil]
    split <;> rfl
  · have hB := argmax_fold_lt l k hk
    rw [if_pos (hmax _ hB)]

/-- Once the best index strictly dominates the rest of the scan it is
kept. -/
theorem argmax_fold_after {α : Type} [LinearOrderedField α] (l : List α) (k : ℕ) :
    ∀ xs : List ℕ, (∀ j ∈ xs, ¬ l.getD k 0 < l.getD j 0) →
      List.foldl (fun b i => if l.getD b 0 < l.getD i 0 then i else b) k xs = k := by
  intro xs
  induction xs with
  | nil => intro _; rfl
  | cons j r ih =>
    intro h
    rw [List.foldl_cons, if_neg (h j (by simp))]
    exact ih fun x hx => h x (by simp [hx])

/-- `np.argmax` returns the index of a strict maximum. -/
theorem argmax_spec {α : Type} [LinearOrderedField α] (l : List α) (k : ℕ) (hk : k < l.length)
    (hmax : ∀ j, j < l.length → j ≠ k → l.getD j 0 < l.getD k 0) : argmax l = k := by
  have hsplit : l.length = (k + 1) + (l.length - (k + 1)) := by omega
  rw [argmax, hsplit, List.range_add, List.foldl_append,
    argmax_fold_upto l k fun j hj => hmax j (by omega) (by omega)]
  apply argmax_fold_after
  intro j hj
  simp only [List.mem_map, List.mem_range] at hj
  obtain ⟨t, ht, rfl⟩ := hj
  exact lt_asymm (hmax _ (by omega) (by omega))

/-- C7 amended: on a uniformly sampled piecewise-linear curve with a single
knee at sample index `k` (input level `t = x0 + k*h`) at which the slope
strictly increases (`s1 < s2`), `estimate_transition` returns exactly the
knee's input level `t` — in particular a value within one sample spacing of
`t`. (When the slope decreases at the knee the claim fails: see the
counterexample.) -/
theorem c7_knee : ∀ (n k : ℕ) (x0 hh s1 s2 c : ℚ) (I O : List ℚ),
    2 ≤ k → k + 3 ≤ n → 0 < hh → s1 < s2 →
    I.length = n → O.length = n →
    (∀ i, i < n → I.getD i 0 = x0 + (i : ℚ) * hh) →
    (∀ i, i < n → O.getD i 0 =
      c + s1 * hh * ((min i k : ℕ) : ℚ) + s2 * hh * (((i - k : ℕ)) : ℚ)) →
    estimate_transition I O = x0 + (k : ℚ) * hh := by
  intro n k x0 hh s1 s2 c I O hk2 hk3 hhpos hs hIlen hOlen hI hO
  have hOv : ∀ i, i < n → i ≤ k → O.getD i 0 = c + s1 * hh * (i : ℚ) := by
    intro i hi hik
    rw [hO i hi, Nat.min_eq_left hik, Nat.sub_eq_zero_of_le hik]
    push_cast
    ring
  have hOv2 : ∀ i, i < n → k ≤ i → O.getD i 0 = c + s1 * hh * (k : ℚ) +
      s2 * hh * ((i : ℚ) - (k : ℚ)) := by
    intro i hi hik
    rw [hO i hi, Nat.min_eq_right hik, Nat.cast_sub hik]
  have hglen : (npGradient O).length = n := by rw [npGradient_length, hOlen]
  -- the first gradient
  have hgl : ∀ i, i < n → i < k → (npGradient O).getD i 0 = s1 * hh := by
    intro i hi hik
    rw [npGradient_getD O i (by omega), hOlen]
    rcases Nat.eq_zero_or_pos i with h0 | h0
    · subst h0
      rw [if_pos rfl, hOv 1 (by omega) (by omega), hOv 0 (by omega) (by omega)]
      push_cast
      ring
    · rw [if_neg (by omega), if_neg (by omega),
        hOv (i + 1) (by omega) (by omega), hOv (i - 1) (by omega) (by omega),
        Nat.cast_sub (by omega)]
      push_cast
      ring
  have hgk : (npGradient O).getD k 0 = (s1 + s2) * hh / 2 := by
    rw [npGradient_getD O k (by omega), hOlen, if_neg (by omega), if_neg (by omega),
      hOv2 (k + 1) (by omega) (by omega), hOv (k - 1) (by omega) (by omega),
      Nat.cast_sub (by omega)]
    push_cast
    ring
  have hgr : ∀ i, i < n → k < i → (npGradient O).getD i 0 = s2 * hh := by
    intro i hi hik
    rw [npGradient_getD O i (by omega), hOlen]
    rcases Nat.eq_zero_or_pos i with h0 | h0
    · omega
    · by_cases hlast : i = n - 1
      · rw [if_neg (by omega), if_pos hlast,
          hOv2 (n - 1) (by omega) (by omega), hOv2 (n - 2) (by omega) (by omega),
          Nat.cast_sub (by omega), Nat.cast_sub (by omega)]
        push_cast
        ring
      · rw [if_neg (by omega), if_neg hlast,
          hOv2 (i + 1) (by omega) (by omega), hOv2 (i - 1) (by omega) (by omega),
          Nat.cast_sub (by omega)]
        push_cast
        ring
  -- the second gradient
  have hd2len : (npGradient (npGradient O)).length = n := by rw [npGradient_length, hglen]
  have hdk : (npGradient (npGradient O)).getD k 0 = (s2 - s1) * hh / 2 := by
    rw [npGradient_getD _ k (by omega), hglen, if_neg (by omega), if_neg (by omega),
      hgr (k + 1) (by omega) (by omega), hgl (k - 1) (by omega) (by omega)]
    ring
  have hdk1 : (npGradient (npGradient O)).getD (k - 1) 0 = (s2 - s1) * hh / 4 := by
    rw [npGradient_getD _ (k - 1) (by omega), hglen, if_neg (by omega), if_neg (by omega),
      show k - 1 + 1 = k from by omega, show k - 1 - 1 = k - 2 from by omega,
      hgk, hgl (k - 2) (by omega) (by omega)]
    ring
  have hdk2 : (npGradient (npGradient O)).getD (k + 1) 0 = (s2 - s1) * hh / 4 := by
    rw [npGradient_getD _ (k + 1) (by omega), hglen, if_neg (by omega), if_neg (by omega),
      show k + 1 + 1 = k + 2 from by omega, show k + 1 - 1 = k from by omega,
      hgr (k + 2) (by omega) (by omega), hgk]
    ring
  have hd0 : ∀ j, j < n → j ≠ k - 1 → j ≠ k → j ≠ k + 1 →
      (npGradient (npGradient O)).getD j 0 = 0 := by
    intro j hj hj1 hj2 hj3
    rw [npGradient_getD _ j (by omega), hglen]
    rcases Nat.eq_zero_or_pos j with h0 | h0
    · subst h0
      rw [if_pos rfl, hgl 1 (by omega) (by omega), hgl 0 (by omega) (by omega)]
      ring
    · by_cases hlast : j = n - 1
      · rw [if_neg (by omega), if_pos hlast,
          hgr (n - 1) (by omega) (by omega), hgr (n - 2) (by omega) (by omega)]
        ring
      · rcases Nat.lt_or_ge j k with hjk | hjk
        · rw [if_neg (by omega), if_neg hlast,
            hgl (j + 1) (by omega) (by omega), hgl (j - 1) (by omega) (by omega)]
          ring
        · rw [if_neg (by omega), if_neg hlast,
            hgr (j + 1) (by omega) (by omega), hgr (j - 1) (by omega) (by omega)]
          ring
  -- locate the maximum curvature
  have hpos : 0 < (s2 - s1) * hh := mul_pos (sub_pos.mpr hs) hhpos
  have hargmax : argmax (npGradient (npGradient O)) = k := by
    apply argmax_spec _ k (by omega)
    intro j hj hjk
    rw [hd2len] at hj
    rw [hdk]
    by_cases hj1 : j = k - 1
    · rw [hj1, hdk1]
      nlinarith
    · by_cases hj3 : j = k + 1
      · rw [hj3, hdk2]
        nlinarith
      · rw [hd0 j hj hj1 hjk hj3]
        nlinarith
  rw [estimate_transition, hargmax, hI k (by omega)]

/-- C7 witness: knee at index 2 of a six-sample curve with slopes 0 then 1;
`estimate_transition` returns the knee level exactly. -/
theorem c7_knee_witness :
    (0 : ℚ) < 1 ∧
    estimate_transition ([0, 1, 2, 3, 4, 5] : List ℚ) [0, 0, 0, 1, 2, 3] = 0 + ((2 : ℕ) : ℚ) * 1 :=
  ⟨by norm_num,
    c7_knee 6 2 0 1 0 1 0 [0, 1, 2, 3, 4, 5] [0, 0, 0, 1, 2, 3]
      (by norm_num) (by norm_num) (by norm_num) (by norm_num) (by simp) (by simp)
      (by
        intro i hi
        interval_cases i <;> norm_num [List.getD_eq_getElem?_getD])
      (by
        intro i hi
        interval_cases i <;> norm_num [List.getD_eq_getElem?_getD])⟩

/-- C7 counterexample: a uniformly sampled piecewise-linear curve with a
sharp knee at input level 1/2 where the slope decreases (1 to 0). The
discrete second derivative is negative around the knee, `np.argmax` picks
index 0, and `estimate_transition` returns 0 — half the range away from the
knee, far beyond one sample spacing (1/4). -/
theorem c7_counterexample :
    estimate_transition ([0, 1/4, 1/2, 3/4, 1] : List ℚ) [0, 1/4, 1/2, 1/2, 1/2] = 0 ∧
    ¬ |(0 : ℚ) - 1/2| ≤ 1/4 := by
  constructor
  · have hg1 : npGradient ([0, 1/4, 1/2, 1/2, 1/2] : List ℚ) = [1/4, 1/4, 1/8, 0, 0] := by
      rw [npGradient, show ([0, 1/4, 1/2, 1/2, 1/2] : List ℚ).length = 5 from by simp,
        show List.range 5 = [0, 1, 2, 3, 4] from by decide]
      norm_num [List.getD_eq_getElem?_getD]
    have hg2 : npGradient ([1/4, 1/4, 1/8, 0, 0] : List ℚ) = [0, -1/16, -1/8, -1/16, 0] := by
      rw [npGradient, show ([1/4, 1/4, 1/8, 0, 0] : List ℚ).length = 5 from by simp,
        show List.range 5 = [0, 1, 2, 3, 4] from by decide]
      norm_num [List.getD_eq_getElem?_getD]
    have ha : argmax ([0, -1/16, -1/8, -1/16, 0] : List ℚ) = 0 := by
      rw [argmax, show ([0, -1/16, -1/8, -1/16, 0] : List ℚ).length = 5 from by simp,
        show List.range 5 = [0, 1, 2, 3, 4] from by decide]
      norm_num [List.getD_eq_getElem?_getD]
    rw [estimate_transition, hg1, hg2, ha]
    norm_num [List.getD_eq_getElem?_getD]
  · have habs : |(0 : ℚ) - 1/2| = 1/2 := by
      rw [zero_sub, abs_neg, abs_of_nonneg]
      norm_num
    rw [habs]
    norm_num

/-- Reducing a realised `Except.bind`. -/
theorem except_bind_ok {ε α β : Type} (a : α) (f : α → Except ε β) :
    (Except.ok a : Except ε α).bind f = f a := rfl

/-- The two-point weighted least-squares slope with equal nonzero weights is
the chord slope. -/
theorem pfSlope_pair (w x1 y1 x2 y2 : ℝ) (hw : w ≠ 0) (hx : x1 ≠ x2) :
    pfSlope [(w, x1, y1), (w, x2, y2)] = (y2 - y1) / (x2 - x1) := by
  have h1 : x2 - x1 ≠ 0 := sub_ne_zero.mpr (Ne.symm hx)
  simp only [pfSlope, List.map_cons, List.map_nil, List.sum_cons, List.sum_nil]
  have hd : (w ^ 2 + (w ^ 2 + 0)) * (w ^ 2 * x1 ^ 2 + (w ^ 2 * x2 ^ 2 + 0)) -
      (w ^ 2 * x1 + (w ^ 2 * x2 + 0)) ^ 2 = (w ^ 2) ^ 2 * (x2 - x1) ^ 2 := by ring
  rw [hd, div_eq_div_iff (by positivity) h1]
  ring

/-- Bridge: column 0 of the counterexample table. -/
theorem colR_cxI : colR cxCurves 0 = cxI := by
  norm_num [colR, cxCurves, cxI]

/-- Bridge: column 1. -/
theorem colR_cxC : colR cxCurves 1 = cxC := by
  norm_num [colR, cxCurves, cxC]

/-- Bridge: column 2. -/
theorem colR_cxM : colR cxCurves 2 = cxM := by
  norm_num [colR, cxCurves, cxM]

/-- Bridge: column 3. -/
theorem colR_cxY : colR cxCurves 3 = cxY := by
  norm_num [colR, cxCurves, cxY]

/-- Bridge: column 4. -/
theorem colR_cxK : colR cxCurves 4 = cxK := by
  norm_num [colR, cxCurves, cxK]

/-- Bridge: the weights computed from the DE table. -/
theorem cxW_bridge : (cxDe.map fun r => 1 / (1 + r.getD 1 0)) = cxW := by
  norm_num [cxDe, cxW]

/-- Bridge: the chromatic mean curve of the counterexample table. -/
theorem cxGray_bridge : (cxCurves.map fun r => (r.getD 1 0 + r.getD 2 0 + r.getD 3 0) / 3) = cxGray := by
  norm_num [cxCurves, cxGray, oA1, oA2]

/-- The gamma mask keeps exactly the first two samples of the
counterexample file, whatever the outputs and weights. -/
theorem gmask_cx (o1 o2 o3 o4 w1 w2 w3 w4 : ℝ) :
    gmask cxI [o1, o2, o3, o4] [w1, w2, w3, w4] = [((1/10, o1), w1), ((1/2, o2), w2)] := by
  norm_num [gmask, cxI, List.zip_cons_cons, List.filter_cons, decide_eq_true_eq]

/-- The two masked log-inputs differ. -/
theorem cx_log_ne : Real.log ((100001:ℝ)/1000000) ≠ Real.log ((500001:ℝ)/1000000) :=
  ne_of_lt (Real.log_lt_log (by norm_num) (by norm_num))

/-- The log-domain spread of the counterexample is positive. -/
theorem cxD_pos : 0 < cxD :=
  sub_pos.mpr (Real.log_lt_log (by norm_num) (by norm_num))

/-- Cyan gamma estimate of the counterexample file. -/
theorem cx_gC : estimate_gamma cxI cxC (some cxW) = Except.ok (Real.log 2 / cxD) := by
  have hm : gmask cxI cxC cxW = [((1/10, oA1), 1/2), ((1/2, oA2), 1/2)] := by
    simp only [cxC, cxW]
    exact gmask_cx oA1 oA2 0 10 (1/2) (1/2) (1/2) (1/2)
  simp only [estimate_gamma, Option.getD_some, hm]
  rw [if_neg (by simp)]
  simp only [List.map_cons, List.map_nil]
  rw [show oA1 + EPS = 1 from by norm_num [oA1, EPS],
    show oA2 + EPS = 2 from by norm_num [oA2, EPS],
    show (1:ℝ)/10 + EPS = 100001/1000000 from by norm_num [EPS],
    show (1:ℝ)/2 + EPS = 500001/1000000 from by norm_num [EPS],
    Real.log_one]
  rw [pfSlope_pair (1/2) (Real.log (100001/1000000)) 0 (Real.log (500001/1000000))
    (Real.log 2) (by norm_num) cx_log_ne]
  rw [sub_zero]
  rfl

/-- Magenta gamma estimate (same data as Cyan). -/
theorem cx_gM : estimate_gamma cxI cxM (some cxW) = Except.ok (Real.log 2 / cxD) := by
  have hm : gmask cxI cxM cxW = [((1/10, oA1), 1/2), ((1/2, oA2), 1/2)] := by
    simp only [cxM, cxW]
    exact gmask_cx oA1 oA2 0 10 (1/2) (1/2) (1/2) (1/2)
  simp only [estimate_gamma, Option.getD_some, hm]
  rw [if_neg (by simp)]
  simp only [List.map_cons, List.map_nil]
  rw [show oA1 + EPS = 1 from by norm_num [oA1, EPS],
    show oA2 + EPS = 2 from by norm_num [oA2, EPS],
    show (1:ℝ)/10 + EPS = 100001/1000000 from by norm_num [EPS],
    show (1:ℝ)/2 + EPS = 500001/1000000 from by norm_num [EPS],
    Real.log_one]
  rw [pfSlope_pair (1/2) (Real.log (100001/1000000)) 0 (Real.log (500001/1000000))
    (Real.log 2) (by norm_num) cx_log_ne]
  rw [sub_zero]
  rfl

/-- Yellow gamma estimate: the masked outputs are constant, so the slope is
zero. -/
theorem cx_gY : estimate_gamma cxI cxY none = Except.ok 0 := by
  have hrep : List.replicate cxI.length (1:ℝ) = [1, 1, 1, 1] := by
    simp [cxI, List.replicate]
  have hm : gmask cxI cxY [1, 1, 1, 1] = [((1/10, oA1), 1), ((1/2, oA1), 1)] := by
    simp only [cxY]
    exact gmask_cx oA1 oA1 1 1 1 1 1 1
  simp only [estimate_gamma, Option.getD_none, hrep, hm]
  rw [if_neg (by simp)]
  simp only [List.map_cons, List.map_nil]
  rw [show oA1 + EPS = 1 from by norm_num [oA1, EPS],
    show (1:ℝ)/10 + EPS = 100001/1000000 from by norm_num [EPS],
    show (1:ℝ)/2 + EPS = 500001/1000000 from by norm_num [EPS],
    Real.log_one]
  rw [pfSlope_pair 1 (Real.log (100001/1000000)) 0 (Real.log (500001/1000000))
    0 (by norm_num) cx_log_ne]
  norm_num

/-- Black gamma estimate. -/
theorem cx_gK : estimate_gamma cxI cxK none = Except.ok (Real.log 2 / cxD) := by
  have hrep : List.replicate cxI.length (1:ℝ) = [1, 1, 1, 1] := by
    simp [cxI, List.replicate]
  have hm : gmask cxI cxK [1, 1, 1, 1] = [((1/10, oA1), 1), ((1/2, oA2), 1)] := by
    simp only [cxK]
    exact gmask_cx oA1 oA2 0 10 1 1 1 1
  simp only [estimate_gamma, Option.getD_none, hrep, hm]
  rw [if_neg (by simp)]
  simp only [List.map_cons, List.map_nil]
  rw [show oA1 + EPS = 1 from by norm_num [oA1, EPS],
    show oA2 + EPS = 2 from by norm_num [oA2, EPS],
    show (1:ℝ)/10 + EPS = 100001/1000000 from by norm_num [EPS],
    show (1:ℝ)/2 + EPS = 500001/1000000 from by norm_num [EPS],
    Real.log_one]
  rw [pfSlope_pair 1 (Real.log (100001/1000000)) 0 (Real.log (500001/1000000))
    (Real.log 2) (by norm_num) cx_log_ne]
  rw [sub_zero]
  rfl

/-- Composite gamma estimate: the fit runs on the mean curve, whose shifted
second sample is exactly 5/3. -/
theorem cx_gG : estimate_gamma cxI cxGray none = Except.ok (Real.log (5/3) / cxD) := by
  have hrep : List.replicate cxI.length (1:ℝ) = [1, 1, 1, 1] := by
    simp [cxI, List.replicate]
  have hm : gmask cxI cxGray [1, 1, 1, 1] = [((1/10, oA1), 1), ((1/2, 4999997/3000000), 1)] := by
    simp only [cxGray]
    exact gmask_cx oA1 (4999997/3000000) (1/3) 7 1 1 1 1
  simp only [estimate_gamma, Option.getD_none, hrep, hm]
  rw [if_neg (by simp)]
  simp only [List.map_cons, List.map_nil]
  rw [show oA1 + EPS = 1 from by norm_num [oA1, EPS],
    show (4999997:ℝ)/3000000 + EPS = 5/3 from by norm_num [EPS],
    show (1:ℝ)/10 + EPS = 100001/1000000 from by norm_num [EPS],
    show (1:ℝ)/2 + EPS = 500001/1000000 from by norm_num [EPS],
    Real.log_one]
  rw [pfSlope_pair 1 (Real.log (100001/1000000)) 0 (Real.log (500001/1000000))
    (Real.log (5/3)) (by norm_num) cx_log_ne]
  rw [sub_zero]
  rfl

/-- Running the v0 per-file update on the counterexample file: the composite
gamma is smoothed towards the gamma of the mean curve, `log(5/3)/cxD`. -/
theorem cx_run : (v0Update (2/5) cxBlocks v0Defaults).map V0Params.compositeGamma
    = Except.ok (smooth 1 (Real.log (5/3) / cxD) (2/5)) := by
  have hcu : keyGetE cxBlocks curvesKey = Except.ok cxCurves := by
    simp +decide [keyGetE, dictGet, cxBlocks]
  have hde : keyGetE cxBlocks deKey = Except.ok cxDe := by
    simp +decide [keyGetE, dictGet, cxBlocks]
  simp only [v0Update, hcu, hde, except_bind_ok, colR_cxI, colR_cxC, colR_cxM, colR_cxY,
    colR_cxK, cxW_bridge, cxGray_bridge, cx_gC, cx_gM, cx_gY, cx_gK, cx_gG]
  simp [Except.map, v0Defaults]

/-- C5 counterexample: on the explicit file `cxBlocks`, the three chromatic
per-channel gamma estimates are `log 2 / cxD`, `log 2 / cxD` and `0`, yet
the smoothing-variant composite-gamma update folds `log(5/3)/cxD` — the
gamma fitted on the per-sample mean curve — which differs from folding the
arithmetic mean of the three per-channel estimates. -/
theorem c5_counterexample :
    (v0Update (2/5) cxBlocks v0Defaults).map V0Params.compositeGamma
      = Except.ok (smooth 1 (Real.log (5/3) / cxD) (2/5)) ∧
    estimate_gamma cxI cxC (some cxW) = Except.ok (Real.log 2 / cxD) ∧
    estimate_gamma cxI cxM (some cxW) = Except.ok (Real.log 2 / cxD) ∧
    estimate_gamma cxI cxY none = Except.ok 0 ∧
    smooth 1 (Real.log (5/3) / cxD) (2/5)
      ≠ smooth 1 ((Real.log 2 / cxD + Real.log 2 / cxD + 0) / 3) (2/5) := by
  refine ⟨cx_run, cx_gC, cx_gM, cx_gY, ?_⟩
  have h4 : (2:ℝ) * Real.log 2 = Real.log 4 := by
    rw [show (4:ℝ) = 2^2 from by norm_num, Real.log_pow]
    push_cast
    ring
  have h125 : (3:ℝ) * Real.log (5/3) = Real.log (125/27) := by
    rw [show ((125:ℝ)/27) = (5/3)^3 from by norm_num, Real.log_pow]
    push_cast
    ring
  have hkey : 2 * Real.log 2 < 3 * Real.log (5/3) := by
    rw [h4, h125]
    exact Real.log_lt_log (by norm_num) (by norm_num)
  have hD := cxD_pos
  intro heq
  simp only [smooth] at heq
  have h1 : Real.log (5/3) / cxD = (Real.log 2 / cxD + Real.log 2 / cxD + 0) / 3 := by
    linarith
  rw [div_add_div_same, add_zero, div_div] at h1
  have h2 := (div_eq_div_iff (ne_of_gt hD) (mul_ne_zero (ne_of_gt hD) (by norm_num))).mp h1
  nlinarith [h2, hkey, hD, mul_pos (sub_pos.mpr hkey) hD]
